import Mathlib

/-!
Shallow embedding of the govulncheck scan-result pipeline of
pkgsite-metrics: the govulncheckapi message/finding types
(internal/govulncheckapi/result.go) and the govulncheck result
manipulation code (internal/govulncheck/govulncheck.go).

Go `time.Time` values are modelled as `Int` nanoseconds since the epoch;
`time.Time.Equal` compares the instants, which is integer equality in this
model.  Go `nil` pointers become `Option.none`, fallible operations return
`Option`/`Except`, and the subprocess run inside `RunGovulncheckCmd` is
made explicit as a `CmdOutcome` value describing how the external scanner
terminated.
-/

namespace Govulncheckapi

/-- Go `time.Time`, as nanoseconds since the epoch. -/
abbrev GoTime := Int

/-- Position (result.go): a copy of token.Position. -/
structure Position where
  Filename : String
  Offset   : Int
  Line     : Int
  Column   : Int
  deriving Repr, DecidableEq

/-- Frame (result.go): an entry in a finding trace. -/
structure Frame where
  Module   : String
  Version  : String
  Package  : String
  Function : String
  Receiver : String
  Position : Option Position
  deriving Repr, DecidableEq

/-- Finding (result.go): a detected vulnerability id together with its
call/import trace, ordered vulnerable-symbol-first. -/
structure Finding where
  OSV          : String
  FixedVersion : String
  Trace        : List Frame
  deriving Repr, DecidableEq

/-- Config (result.go): the configuration header message payload. -/
structure Config where
  ProtocolVersion : String
  ScannerName     : String
  ScannerVersion  : String
  DB              : String
  DBLastModified  : Option GoTime
  GoVersion       : String
  GOOS            : String
  GOARCH          : String
  ImportsOnly     : Bool
  deriving Repr, DecidableEq

/-- Progress (result.go): a progress message payload. -/
structure Progress where
  Timestamp : Option GoTime
  Message   : String
  deriving Repr, DecidableEq

/-- Modelled from the spec: `osv.Entry` (package internal/osv is not under
src/); the spec only treats it as an opaque vulnerability-database entry
identified by its id. -/
structure OsvEntry where
  ID : String
  deriving Repr, DecidableEq

/-- Message (result.go): an entry in the scanner output stream, a record of
four optional payload fields of which exactly one is expected to be set. -/
structure Message where
  Config   : Option Config
  Progress : Option Progress
  OSV      : Option OsvEntry
  Finding  : Option Finding
  deriving Repr, DecidableEq

/-- Number of populated payload fields of a message. -/
def Message.populated (m : Message) : Nat :=
  (if m.Config.isSome then 1 else 0) +
  (if m.Progress.isSome then 1 else 0) +
  (if m.OSV.isSome then 1 else 0) +
  (if m.Finding.isSome then 1 else 0)

/-- Errors of the stream decoder. -/
inductive DecodeError where
  | malformedMessage
  deriving Repr, DecidableEq

/-- Rendering of a decode error as Go error text. -/
def DecodeError.message : DecodeError → String
  | .malformedMessage => "malformed govulncheck message"

/-- Modelled from the spec: the message decoder (HandleJSON's per-message
step; internal/govulncheckapi/handler.go is not under src/).  "Decoding
fails with a MalformedMessageError if a message decodes to zero or more
than one populated field"; a well-formed message is passed through. -/
def decodeMessage (m : Message) : Except DecodeError Message :=
  if m.populated = 1 then .ok m else .error .malformedMessage

/-- Modelled from the spec: decoding the whole stream, message by message,
in order; the first malformed message aborts decoding with its error. -/
def decodeStream : List Message → Except DecodeError (List Message)
  | [] => .ok []
  | m :: ms =>
    match decodeMessage m with
    | .error e => .error e
    | .ok m' =>
      match decodeStream ms with
      | .error e => .error e
      | .ok ms' => .ok (m' :: ms')

/-- Modelled from the spec: `HandleJSON` feeding a `MetricsHandler`
(internal/govulncheckapi/handler.go and the handler are not under src/):
on a well-formed stream the handler collects the findings, discarding
config/progress/osv messages, which are informational only. -/
def HandleJSON (msgs : List Message) : Except DecodeError (List Finding) :=
  (decodeStream msgs).map (fun ms => ms.filterMap (·.Finding))

end Govulncheckapi

namespace Govulncheck

open Govulncheckapi

/-- Vuln (govulncheck.go): a normalized vulnerability record in a Result. -/
structure Vuln where
  ID          : String
  PackagePath : String
  ModulePath  : String
  Version     : String
  Called      : Bool
  deriving Repr, DecidableEq

/-- ConvertGovulncheckFinding (govulncheck.go): converts a finding from
govulncheck into a bigquery vuln from the first trace frame.  The Go code
indexes `f.Trace[0]`, which panics on an empty trace; the panic is modelled
as `none`. -/
def ConvertGovulncheckFinding (f : Finding) : Option Vuln :=
  match f.Trace with
  | [] => none
  | vulnerableFrame :: _ =>
    let vuln : Vuln :=
      { ID          := f.OSV
        PackagePath := vulnerableFrame.Package
        ModulePath  := vulnerableFrame.Module
        Version     := vulnerableFrame.Version
        Called      := false }
    if vulnerableFrame.Function ≠ "" then some { vuln with Called := true }
    else some vuln

/-- WorkVersion (govulncheck.go): information used to avoid duplicate
work. -/
structure WorkVersion where
  GoVersion          : String
  WorkerVersion      : String
  SchemaVersion      : String
  VulnDBLastModified : GoTime
  deriving Repr, DecidableEq

/-- WorkVersion.Equal (govulncheck.go).  The Go receiver and argument are
pointers; `none` models a nil pointer, and `time.Time.Equal` is instant
equality. -/
def WorkVersion.Equal (v1 v2 : Option WorkVersion) : Bool :=
  match v1, v2 with
  | none, _ => false
  | _, none => false
  | some v1, some v2 =>
    v1.GoVersion == v2.GoVersion &&
    v1.WorkerVersion == v2.WorkerVersion &&
    v1.SchemaVersion == v2.SchemaVersion &&
    v1.VulnDBLastModified == v2.VulnDBLastModified

/-- A Go `error` value: the spec-relevant content is the text returned by
its `Error()` method.  A Go `nil` error is `Option.none`. -/
structure GoError where
  msg : String
  deriving Repr, DecidableEq

/-- Modelled from the spec: `derrors.CategorizeError` (package
internal/derrors is not under src/).  The spec describes it as "a coarse
classification such as timeout, build-failure, scanner-panic, etc.,
computed from the error's content", and its end-to-end scenario shows a
non-empty error category for every present error. -/
def CategorizeError (e : GoError) : String :=
  if (e.msg.splitOn "timeout").length > 1 then "timeout"
  else if (e.msg.splitOn "build").length > 1 then "build-failure"
  else if (e.msg.splitOn "panic").length > 1 then "scanner-panic"
  else "scanner-error"

/-- Result (govulncheck.go): a row in the BigQuery govulncheck table.
`bq.NullFloat64` becomes `Option`; float64 durations are abstract
numeric time values. -/
structure Result where
  CreatedAt          : GoTime
  ModulePath         : String
  Version            : String
  Suffix             : String
  SortVersion        : String
  ImportedBy         : Int
  Error              : String
  ErrorCategory      : String
  CommitTime         : GoTime
  ScanSeconds        : Nat
  BinaryBuildSeconds : Option Nat
  ScanMemory         : Int
  ScanMode           : String
  WorkVersion        : WorkVersion
  Vulns              : List Vuln
  deriving Repr, DecidableEq

/-- Result.SetUploadTime (govulncheck.go). -/
def Result.SetUploadTime (vr : Result) (t : GoTime) : Result :=
  { vr with CreatedAt := t }

/-- Result.AddError (govulncheck.go): a nil error is ignored; otherwise the
error text and its derived category are stored. -/
def Result.AddError (vr : Result) (err : Option GoError) : Result :=
  match err with
  | none => vr
  | some err =>
    { vr with Error := err.msg, ErrorCategory := CategorizeError err }

/-- ScanStats (govulncheck.go): monitoring information for a run.
Durations are abstract numeric time values, memory is in kb. -/
structure ScanStats where
  ScanSeconds : Nat
  ScanMemory  : Nat
  BuildTime   : Nat
  deriving Repr, DecidableEq

/-- How the external govulncheck subprocess terminated: whether `Run`
returned an error (non-zero exit), the bytes it wrote to standard output
(already split into stream messages), the captured standard-error text,
and the wall-clock time the subprocess took. -/
structure CmdOutcome where
  exitErr : Bool
  stdout  : List Message
  stderr  : String
  elapsed : Nat
  deriving Repr, DecidableEq

/-- getMemoryUsage (govulncheck.go): the default measurement, overridden
with a Unix-specific function on Linux (that override is not under src/);
the default returns 0. -/
def getMemoryUsage (_c : CmdOutcome) : Nat := 0

/-- RunGovulncheckCmd (govulncheck.go), from the point where the
subprocess has been started: on a non-zero exit it fails with the captured
standard-error text and touches neither the stats nor the standard output;
otherwise it records duration and memory in the stats and decodes the
findings from standard output. -/
def RunGovulncheckCmd (outcome : CmdOutcome) (stats : ScanStats) :
    Except String (List Finding) × ScanStats :=
  if outcome.exitErr then
    (.error outcome.stderr, stats)
  else
    let stats :=
      { stats with
        ScanSeconds := outcome.elapsed
        ScanMemory := getMemoryUsage outcome }
    match HandleJSON outcome.stdout with
    | .error e => (.error e.message, stats)
    | .ok findings => (.ok findings, stats)

/-- filepath.ToSlash on Windows: replace the separator backslash by a
forward slash. -/
def toSlash (p : String) : String :=
  ⟨p.data.map fun c => if c = '\\' then '/' else c⟩

/-- The vulnerability-database URI built by RunGovulncheckCmd
(govulncheck.go) before the subprocess is started, as a function of
`runtime.GOOS`. -/
def vulndbURI (goos vulndbDir : String) : String :=
  let uri := "file://" ++ vulndbDir
  if goos = "windows" then "file:///" ++ toSlash vulndbDir else uri

/-- The argument list RunGovulncheckCmd (govulncheck.go) passes to the
govulncheck subprocess. -/
def govulncheckArgs (modeFlag moduleDir pattern uri : String) :
    List String :=
  let args := ["-mode", modeFlag, "-json", "-db", uri]
  let args := if moduleDir ≠ "" then args ++ ["-C", moduleDir] else args
  args ++ [pattern]

/-- CategorizeError never returns the empty category: every branch of the
classification is a non-empty literal. -/
theorem CategorizeError_ne_empty (e : GoError) : CategorizeError e ≠ "" := by
  unfold CategorizeError
  split
  · decide
  · split
    · decide
    · split
      · decide
      · decide

end Govulncheck

namespace Claims

open Govulncheckapi Govulncheck

/-- C1: for a Finding whose trace is non-empty, ConvertGovulncheckFinding
returns exactly one Vuln whose ID is the Finding's OSV id, whose
PackagePath, ModulePath and Version come from the first trace frame only,
and whose Called flag is true iff that frame's Function is non-empty. -/
theorem convert_finding_uses_first_frame (f : Finding) (fr : Frame)
    (rest : List Frame) (h : f.Trace = fr :: rest) :
    ConvertGovulncheckFinding f =
      some { ID := f.OSV
             PackagePath := fr.Package
             ModulePath := fr.Module
             Version := fr.Version
             Called := fr.Function != "" } := by
  by_cases hf : fr.Function = "" <;>
    simp [ConvertGovulncheckFinding, h, hf]

/-- Witness for C1: the spec's end-to-end scenario input. -/
theorem convert_finding_uses_first_frame_witness :
    (Finding.mk "GO-2023-0001" ""
        [Frame.mk "example.com/m" "v1.2.0" "example.com/m/pkg" "Do" "" none]).Trace
      = Frame.mk "example.com/m" "v1.2.0" "example.com/m/pkg" "Do" "" none :: [] ∧
    ConvertGovulncheckFinding
        (Finding.mk "GO-2023-0001" ""
          [Frame.mk "example.com/m" "v1.2.0" "example.com/m/pkg" "Do" "" none])
      = some (Vuln.mk "GO-2023-0001" "example.com/m/pkg" "example.com/m" "v1.2.0" true) :=
  ⟨rfl, convert_finding_uses_first_frame _ _ _ rfl⟩

/-- C2: for non-nil WorkVersions, Equal is true iff all four fields are
equal; it is reflexive and symmetric, and any difference in
VulnDBLastModified (in particular a sub-second one, one nanosecond in this
model) makes the two unequal. -/
theorem workVersion_equal_fieldwise (v1 v2 : WorkVersion) :
    (WorkVersion.Equal (some v1) (some v2) = true ↔
      (v1.GoVersion = v2.GoVersion ∧ v1.WorkerVersion = v2.WorkerVersion ∧
       v1.SchemaVersion = v2.SchemaVersion ∧
       v1.VulnDBLastModified = v2.VulnDBLastModified)) ∧
    WorkVersion.Equal (some v1) (some v1) = true ∧
    WorkVersion.Equal (some v1) (some v2) = WorkVersion.Equal (some v2) (some v1) ∧
    (v1.VulnDBLastModified ≠ v2.VulnDBLastModified →
      WorkVersion.Equal (some v1) (some v2) = false) := by
  refine ⟨by simp [WorkVersion.Equal, and_assoc], by simp [WorkVersion.Equal], ?_, ?_⟩
  · apply Bool.eq_iff_iff.mpr
    simp only [WorkVersion.Equal, Bool.and_eq_true, beq_iff_eq]
    constructor
    · rintro ⟨⟨⟨a, b⟩, c⟩, d⟩
      exact ⟨⟨⟨a.symm, b.symm⟩, c.symm⟩, d.symm⟩
    · rintro ⟨⟨⟨a, b⟩, c⟩, d⟩
      exact ⟨⟨⟨a.symm, b.symm⟩, c.symm⟩, d.symm⟩
  · intro hne
    simp [WorkVersion.Equal]
    intro _ _ _
    exact fun ht => absurd ht hne

/-- Witness for C2: two WorkVersions identical except for a one-nanosecond
difference in VulnDBLastModified compare unequal. -/
theorem workVersion_equal_fieldwise_witness :
    (WorkVersion.mk "go1.21" "w1" "s1" 1000000000).VulnDBLastModified ≠
      (WorkVersion.mk "go1.21" "w1" "s1" 1000000001).VulnDBLastModified ∧
    WorkVersion.Equal (some (WorkVersion.mk "go1.21" "w1" "s1" 1000000000))
        (some (WorkVersion.mk "go1.21" "w1" "s1" 1000000001)) = false :=
  ⟨by decide,
   (workVersion_equal_fieldwise _ _).2.2.2 (by decide)⟩

/-- C6: a nil pointer on either side makes WorkVersion.Equal return false,
so the skip decision is never to skip. -/
theorem workVersion_equal_nil_false (v : Option WorkVersion) :
    WorkVersion.Equal none v = false ∧ WorkVersion.Equal v none = false := by
  cases v <;> simp [WorkVersion.Equal]

/-- C7: ConvertGovulncheckFinding yields a defined Vuln exactly when the
trace is non-empty; with a non-empty trace the first-frame access is in
bounds and the conversion never fails, and with an empty trace there is no
defined result (the Go code would panic, modelled as none). -/
theorem convert_finding_defined_iff_nonempty_trace (f : Finding) :
    (ConvertGovulncheckFinding f).isSome = true ↔ f.Trace ≠ [] := by
  cases h : f.Trace with
  | nil => simp [ConvertGovulncheckFinding, h]
  | cons fr rest =>
    by_cases hf : fr.Function = "" <;>
      simp [ConvertGovulncheckFinding, h, hf]

/-- A sample normalized vulnerability record. -/
def vulnSample : Vuln :=
  Vuln.mk "GO-2023-0001" "example.com/m/pkg" "example.com/m" "v1.2.0" true

/-- A sample Result that already carries one Vuln. -/
def resultWithVuln : Result :=
  { CreatedAt := 0
    ModulePath := "example.com/m"
    Version := "v1.2.0"
    Suffix := ""
    SortVersion := ""
    ImportedBy := 10
    Error := ""
    ErrorCategory := ""
    CommitTime := 0
    ScanSeconds := 1
    BinaryBuildSeconds := none
    ScanMemory := 0
    ScanMode := "GOVULNCHECK"
    WorkVersion := WorkVersion.mk "go1.21" "w1" "s1" 0
    Vulns := [vulnSample] }

/-- The same sample Result with no Vulns. -/
def emptyVulnsResult : Result := { resultWithVuln with Vulns := [] }

/-- Counterexample to C3: AddError does not clear Vulns, so applying it
with a non-nil error to a Result that already has findings yields a Result
with non-empty Error and non-empty Vulns, violating the invariant. -/
theorem addError_keeps_vulns_counterexample :
    (resultWithVuln.AddError (some (GoError.mk "scan failed"))).Error ≠ "" ∧
    (resultWithVuln.AddError (some (GoError.mk "scan failed"))).Vulns ≠ [] := by
  refine ⟨?_, ?_⟩ <;> simp [Result.AddError, resultWithVuln]

/-- C3 (amended): AddError leaves Vulns unchanged, so applying it (with any
error, nil or not) to a Result whose Vulns list is empty yields a Result
satisfying the invariant that a non-empty Error implies empty Vulns. -/
theorem addError_invariant_on_empty_vulns (vr : Result) (err : Option GoError)
    (h : vr.Vulns = []) :
    (vr.AddError err).Vulns = [] ∧
    ((vr.AddError err).Error ≠ "" → (vr.AddError err).Vulns = []) := by
  cases err <;> simp [Result.AddError, h]

/-- Witness for C3 (amended) at a concrete Result with empty Vulns. -/
theorem addError_invariant_on_empty_vulns_witness :
    emptyVulnsResult.Vulns = [] ∧
    ((emptyVulnsResult.AddError (some (GoError.mk "boom"))).Vulns = [] ∧
     ((emptyVulnsResult.AddError (some (GoError.mk "boom"))).Error ≠ "" →
      (emptyVulnsResult.AddError (some (GoError.mk "boom"))).Vulns = [])) :=
  ⟨rfl, addError_invariant_on_empty_vulns emptyVulnsResult _ rfl⟩

/-- C10: AddError with a nil error leaves the Result unchanged; with a
non-nil error it sets Error to the error text and ErrorCategory to its
derived category, and leaves every other field unchanged. -/
theorem addError_frame_conditions (vr : Result) (e : GoError) :
    vr.AddError none = vr ∧
    (vr.AddError (some e)).CreatedAt = vr.CreatedAt ∧
    (vr.AddError (some e)).ModulePath = vr.ModulePath ∧
    (vr.AddError (some e)).Version = vr.Version ∧
    (vr.AddError (some e)).Suffix = vr.Suffix ∧
    (vr.AddError (some e)).SortVersion = vr.SortVersion ∧
    (vr.AddError (some e)).ImportedBy = vr.ImportedBy ∧
    (vr.AddError (some e)).CommitTime = vr.CommitTime ∧
    (vr.AddError (some e)).ScanSeconds = vr.ScanSeconds ∧
    (vr.AddError (some e)).BinaryBuildSeconds = vr.BinaryBuildSeconds ∧
    (vr.AddError (some e)).ScanMemory = vr.ScanMemory ∧
    (vr.AddError (some e)).ScanMode = vr.ScanMode ∧
    (vr.AddError (some e)).WorkVersion = vr.WorkVersion ∧
    (vr.AddError (some e)).Vulns = vr.Vulns ∧
    (vr.AddError (some e)).Error = e.msg ∧
    (vr.AddError (some e)).ErrorCategory = CategorizeError e := by
  simp [Result.AddError]

/-- C4: when the subprocess exits non-zero, RunGovulncheckCmd returns an
error whose text is exactly the captured standard-error output, returns no
findings, and never consults the standard output (the result is the same
for every stdout content). -/
theorem runCmd_nonzero_exit_stderr (outcome : CmdOutcome) (stats : ScanStats)
    (h : outcome.exitErr = true) :
    RunGovulncheckCmd outcome stats = (.error outcome.stderr, stats) ∧
    ∀ alt : List Message,
      RunGovulncheckCmd { outcome with stdout := alt } stats =
        (.error outcome.stderr, stats) := by
  exact ⟨by simp [RunGovulncheckCmd, h], fun alt => by simp [RunGovulncheckCmd, h]⟩

/-- A concrete failing subprocess outcome: non-zero exit after 5 time
units, with "db unreachable" on standard error. -/
def failOutcome : CmdOutcome :=
  { exitErr := true, stdout := [], stderr := "db unreachable", elapsed := 5 }

/-- Fresh all-zero scan statistics. -/
def zeroStats : ScanStats := { ScanSeconds := 0, ScanMemory := 0, BuildTime := 0 }

/-- Witness for C4 at the concrete failing outcome. -/
theorem runCmd_nonzero_exit_stderr_witness :
    failOutcome.exitErr = true ∧
    (RunGovulncheckCmd failOutcome zeroStats =
        (.error failOutcome.stderr, zeroStats) ∧
     ∀ alt : List Message,
       RunGovulncheckCmd { failOutcome with stdout := alt } zeroStats =
         (.error failOutcome.stderr, zeroStats)) :=
  ⟨rfl, runCmd_nonzero_exit_stderr failOutcome zeroStats rfl⟩

/-- Counterexample to C5: on a non-zero exit the runner leaves the stats
exactly as passed in, so the scan duration is not measured up to the point
of failure: with fresh zero stats and a subprocess that ran 5 time units
before failing, the returned ScanSeconds is 0, not 5. -/
theorem runCmd_failure_stats_counterexample :
    failOutcome.elapsed = 5 ∧
    (RunGovulncheckCmd failOutcome zeroStats).2.ScanSeconds = 0 ∧
    (RunGovulncheckCmd failOutcome zeroStats).2.ScanSeconds ≠ failOutcome.elapsed := by
  refine ⟨rfl, ?_, ?_⟩ <;> simp [RunGovulncheckCmd, failOutcome, zeroStats]

/-- C5 (amended): when the subprocess exits non-zero the runner fails with
the stderr text and produces no findings, and the record built from that
error carries the stderr text as its error with a non-empty error category
and empty Vulns; the stats are returned exactly as passed in (the duration
is not recorded on failure), and the default memory measurement (where
unsupported) is zero. -/
theorem runCmd_failure_record (outcome : CmdOutcome) (stats : ScanStats)
    (vr : Result) (h : outcome.exitErr = true) (hv : vr.Vulns = []) :
    (RunGovulncheckCmd outcome stats).1 = .error outcome.stderr ∧
    (RunGovulncheckCmd outcome stats).2 = stats ∧
    (vr.AddError (some (GoError.mk outcome.stderr))).Error = outcome.stderr ∧
    (vr.AddError (some (GoError.mk outcome.stderr))).ErrorCategory ≠ "" ∧
    (vr.AddError (some (GoError.mk outcome.stderr))).Vulns = [] ∧
    getMemoryUsage outcome = 0 := by
  refine ⟨?_, ?_, ?_, ?_, ?_, rfl⟩
  · simp [RunGovulncheckCmd, h]
  · simp [RunGovulncheckCmd, h]
  · simp [Result.AddError]
  · simpa [Result.AddError] using
      CategorizeError_ne_empty (GoError.mk outcome.stderr)
  · simp [Result.AddError, hv]

/-- Witness for C5 (amended): the spec scenario with stderr
"db unreachable". -/
theorem runCmd_failure_record_witness :
    failOutcome.exitErr = true ∧ emptyVulnsResult.Vulns = [] ∧
    ((RunGovulncheckCmd failOutcome zeroStats).1 = .error failOutcome.stderr ∧
     (RunGovulncheckCmd failOutcome zeroStats).2 = zeroStats ∧
     (emptyVulnsResult.AddError (some (GoError.mk failOutcome.stderr))).Error =
       failOutcome.stderr ∧
     (emptyVulnsResult.AddError (some (GoError.mk failOutcome.stderr))).ErrorCategory ≠ "" ∧
     (emptyVulnsResult.AddError (some (GoError.mk failOutcome.stderr))).Vulns = [] ∧
     getMemoryUsage failOutcome = 0) :=
  ⟨rfl, rfl, runCmd_failure_record failOutcome zeroStats emptyVulnsResult rfl rfl⟩

/-- C8: the vulnerability-database directory is turned into a file URI and
passed to the scanner after the -db flag; on Windows the path is converted
to forward slashes after a file:/// marker, elsewhere it gets a plain
file:// marker. -/
theorem vulndb_uri_portable (goos dir modeFlag moduleDir pat : String) :
    (govulncheckArgs modeFlag moduleDir pat (vulndbURI goos dir))[3]? = some "-db" ∧
    (govulncheckArgs modeFlag moduleDir pat (vulndbURI goos dir))[4]? =
      some (vulndbURI goos dir) ∧
    vulndbURI "windows" dir = "file:///" ++ toSlash dir ∧
    (∀ c ∈ (toSlash dir).data, c ≠ '\\') ∧
    (goos ≠ "windows" → vulndbURI goos dir = "file://" ++ dir) := by
  refine ⟨?_, ?_, by simp [vulndbURI], ?_, ?_⟩
  · by_cases h : moduleDir = "" <;> simp [govulncheckArgs, h]
  · by_cases h : moduleDir = "" <;> simp [govulncheckArgs, h]
  · intro c hc
    simp only [toSlash, List.mem_map] at hc
    obtain ⟨a, _, rfl⟩ := hc
    by_cases ha : a = '\\' <;> simp [ha]
  · intro h
    simp [vulndbURI, h]

/-- Witness for C8 on a non-Windows platform. -/
theorem vulndb_uri_portable_witness :
    ("linux" : String) ≠ "windows" ∧
    vulndbURI "linux" "/tmp/db" = "file://" ++ "/tmp/db" :=
  ⟨by decide,
   (vulndb_uri_portable "linux" "/tmp/db" "source" "" "./...").2.2.2.2 (by decide)⟩

/-- C9: a stream containing a message with zero or more than one populated
payload field fails to decode with the malformed-message error, both in
the raw stream decoder and in HandleJSON; the message is never silently
dropped or accepted. -/
theorem decode_rejects_malformed_message (msgs : List Message)
    (h : ∃ m ∈ msgs, m.populated ≠ 1) :
    decodeStream msgs = .error .malformedMessage ∧
    HandleJSON msgs = .error .malformedMessage := by
  have hs : ∀ ms : List Message, (∃ m ∈ ms, m.populated ≠ 1) →
      decodeStream ms = .error .malformedMessage := by
    intro ms
    induction ms with
    | nil =>
      intro h0
      obtain ⟨m, hm, _⟩ := h0
      cases hm
    | cons m ms ih =>
      intro h0
      by_cases hp : m.populated = 1
      · have hrest : ∃ mr ∈ ms, mr.populated ≠ 1 := by
          obtain ⟨mr, hmr, hpr⟩ := h0
          rcases List.mem_cons.mp hmr with heq | hmem
          · exact absurd hp (heq ▸ hpr)
          · exact ⟨mr, hmem, hpr⟩
        simp [decodeStream, decodeMessage, hp, ih hrest]
      · simp [decodeStream, decodeMessage, hp]
  refine ⟨hs msgs h, ?_⟩
  simp [HandleJSON, hs msgs h, Except.map]

/-- A message with no populated payload field. -/
def malformedMsg : Message :=
  { Config := none, Progress := none, OSV := none, Finding := none }

/-- Witness for C9: a one-message stream whose message populates zero
fields. -/
theorem decode_rejects_malformed_message_witness :
    (∃ m ∈ [malformedMsg], m.populated ≠ 1) ∧
    (decodeStream [malformedMsg] = .error .malformedMessage ∧
     HandleJSON [malformedMsg] = .error .malformedMessage) :=
  ⟨⟨malformedMsg, by simp, by decide⟩,
   decode_rejects_malformed_message [malformedMsg]
     ⟨malformedMsg, by simp, by decide⟩⟩

end Claims
